import Mathlib

/-!
Shallow embedding of the configuration and credential-resolution logic of
`src/app/backend/app.py` (function `create_app`), together with theorems
settling the specification claims about it.

The process environment is modelled as a partial map from variable names to
string values.  Python truthiness of an optional string (`None` and `""` are
falsy, every non-empty string is truthy) is modelled explicitly, since the
source relies on it (`if not llm_key or not search_key`, `x or "default"`,
the walrus test `if tenant_id := os.environ.get(...)`).
-/

/-- The process environment, `os.environ`: a partial map from variable names
to string values. -/
def Env : Type := String → Option String

/-- Python truthiness of an optional string: `None` and the empty string are
falsy, any non-empty string is truthy. -/
def strTruthy : Option String → Bool
  | none => false
  | some s => !(s = "")

/-- Python `x or d` for an optional string `x` and a string default `d`
(used at lines 41 and 92-95 of `app.py`). -/
def pyOrString (x : Option String) (d : String) : String :=
  match x with
  | none => d
  | some s => if s = "" then d else s

/-- Python `x or None` for an optional string `x` (line 91 of `app.py`). -/
def pyOrNone (x : Option String) : Option String :=
  match x with
  | none => none
  | some s => if s = "" then none else some s

/-- The credential values `create_app` can construct:
`AzureKeyCredential(key)` (a static key wrapping a secret string),
`AzureDeveloperCliCredential(tenant_id=..., process_timeout=60)` (a
tenant-scoped interactive identity credential), and
`DefaultAzureCredential()` (an ambient-environment identity credential). -/
inductive Credential : Type where
  | staticKey (key : String)
  | tenantIdentity (tenant_id : String) (process_timeout : Nat)
  | ambientIdentity
  deriving DecidableEq, Repr

/-- Lines 26-31 of `app.py`: the fallback identity credential.  The walrus
test `if tenant_id := os.environ.get("AZURE_TENANT_ID")` takes the
tenant-scoped branch exactly when the variable is set to a non-empty
string; the timeout argument is `process_timeout=60`. -/
def fallbackCredential (env : Env) : Credential :=
  match env "AZURE_TENANT_ID" with
  | some tenant_id =>
      if tenant_id = "" then Credential.ambientIdentity
      else Credential.tenantIdentity tenant_id 60
  | none => Credential.ambientIdentity

/-- The three credential-valued locals of `create_app`:
`credential` (the fallback, `None` when never constructed),
`llm_credential` and `search_credential`. -/
structure ResolvedCredentials where
  credential : Option Credential
  llm_credential : Option Credential
  search_credential : Option Credential
  deriving DecidableEq, Repr

/-- Lines 21-33 of `app.py`:

```python
llm_key = os.environ.get("AZURE_OPENAI_API_KEY")
search_key = os.environ.get("AZURE_SEARCH_API_KEY")
credential = None
if not llm_key or not search_key:
    if tenant_id := os.environ.get("AZURE_TENANT_ID"):
        credential = AzureDeveloperCliCredential(tenant_id=tenant_id, process_timeout=60)
    else:
        credential = DefaultAzureCredential()
llm_credential = AzureKeyCredential(llm_key) if llm_key else credential
search_credential = AzureKeyCredential(search_key) if search_key else credential
```
-/
def resolveCredentials (env : Env) : ResolvedCredentials :=
  let llm_key := env "AZURE_OPENAI_API_KEY"
  let search_key := env "AZURE_SEARCH_API_KEY"
  let credential : Option Credential :=
    if !strTruthy llm_key || !strTruthy search_key then
      some (fallbackCredential env)
    else
      none
  { credential := credential
    llm_credential :=
      if strTruthy llm_key then llm_key.map Credential.staticKey else credential
    search_credential :=
      if strTruthy search_key then search_key.map Credential.staticKey else credential }

/-- Line 96 of `app.py`:
`use_vector_query=(os.getenv("AZURE_SEARCH_USE_VECTOR_QUERY", "true") == "true")`. -/
def use_vector_query (env : Env) : Bool :=
  (env "AZURE_SEARCH_USE_VECTOR_QUERY").getD "true" == "true"

/-- Line 41 of `app.py`:
`voice_choice=os.environ.get("AZURE_OPENAI_REALTIME_VOICE_CHOICE") or "alloy"`. -/
def voice_choice (env : Env) : String :=
  pyOrString (env "AZURE_OPENAI_REALTIME_VOICE_CHOICE") "alloy"

/-- Line 91 of `app.py`:
`semantic_configuration=os.environ.get("AZURE_SEARCH_SEMANTIC_CONFIGURATION") or None`. -/
def semantic_configuration (env : Env) : Option String :=
  pyOrNone (env "AZURE_SEARCH_SEMANTIC_CONFIGURATION")

/-- Line 92 of `app.py`:
`identifier_field=os.environ.get("AZURE_SEARCH_IDENTIFIER_FIELD") or "chunk_id"`. -/
def identifier_field (env : Env) : String :=
  pyOrString (env "AZURE_SEARCH_IDENTIFIER_FIELD") "chunk_id"

/-- Line 93 of `app.py`:
`content_field=os.environ.get("AZURE_SEARCH_CONTENT_FIELD") or "chunk"`. -/
def content_field (env : Env) : String :=
  pyOrString (env "AZURE_SEARCH_CONTENT_FIELD") "chunk"

/-- Line 94 of `app.py`:
`embedding_field=os.environ.get("AZURE_SEARCH_EMBEDDING_FIELD") or "text_vector"`. -/
def embedding_field (env : Env) : String :=
  pyOrString (env "AZURE_SEARCH_EMBEDDING_FIELD") "text_vector"

/-- Line 95 of `app.py`:
`title_field=os.environ.get("AZURE_SEARCH_TITLE_FIELD") or "title"`. -/
def title_field (env : Env) : String :=
  pyOrString (env "AZURE_SEARCH_TITLE_FIELD") "title"

/-- The keyword arguments `create_app` passes to `attach_rag_tools`
(lines 87-97 of `app.py`), except the session-manager instance itself. -/
structure RagToolsArgs where
  credentials : Option Credential
  search_endpoint : Option String
  search_index : Option String
  semantic_configuration : Option String
  identifier_field : String
  content_field : String
  embedding_field : String
  title_field : String
  use_vector_query : Bool
  deriving DecidableEq, Repr

/-- Lines 87-97 of `app.py`: the argument record of the
`attach_rag_tools(rtmt, ...)` call. -/
def attach_rag_tools_args (env : Env) : RagToolsArgs :=
  { credentials := (resolveCredentials env).search_credential
    search_endpoint := env "AZURE_SEARCH_ENDPOINT"
    search_index := env "AZURE_SEARCH_INDEX"
    semantic_configuration := semantic_configuration env
    identifier_field := identifier_field env
    content_field := content_field env
    embedding_field := embedding_field env
    title_field := title_field env
    use_vector_query := use_vector_query env }

/-- The configuration arguments `create_app` passes to the `RTMiddleTier`
constructor (lines 37-42 of `app.py`), besides the credential. -/
structure RTMiddleTierArgs where
  endpoint : String
  deployment : String
  voice_choice : String
  deriving DecidableEq, Repr

/-- Lines 39-41 of `app.py`: `os.environ["AZURE_OPENAI_ENDPOINT"]` and
`os.environ["AZURE_OPENAI_REALTIME_DEPLOYMENT"]` are mandatory subscript
lookups that raise `KeyError` (a configuration error) when the variable is
absent; the error carries the missing variable name.  The endpoint is
looked up first. -/
def rtmt_args (env : Env) : Except String RTMiddleTierArgs :=
  match env "AZURE_OPENAI_ENDPOINT" with
  | none => Except.error "AZURE_OPENAI_ENDPOINT"
  | some endpoint =>
      match env "AZURE_OPENAI_REALTIME_DEPLOYMENT" with
      | none => Except.error "AZURE_OPENAI_REALTIME_DEPLOYMENT"
      | some deployment =>
          Except.ok { endpoint := endpoint
                      deployment := deployment
                      voice_choice := voice_choice env }

/-- An environment update (used to compare a run against the same run with
one variable removed or changed). -/
def updateEnv (env : Env) (k : String) (v : Option String) : Env :=
  fun x => if x = k then v else env x

/-! ### Concrete environments used by witnesses and counterexamples -/

/-- The empty environment: no variable set. -/
def emptyEnv : Env := fun _ => none

/-- Both API keys set to non-empty secrets, nothing else set. -/
def envBothKeys : Env := fun k =>
  if k = "AZURE_OPENAI_API_KEY" then some "llm-secret"
  else if k = "AZURE_SEARCH_API_KEY" then some "search-secret"
  else none

/-- Only the tenant id set. -/
def envTenantOnly : Env := fun k =>
  if k = "AZURE_TENANT_ID" then some "tenant-1" else none

/-- Only the language-model API key set. -/
def envLLMKeyOnly : Env := fun k =>
  if k = "AZURE_OPENAI_API_KEY" then some "llm-secret" else none

/-- Only the search API key set. -/
def envSearchKeyOnly : Env := fun k =>
  if k = "AZURE_SEARCH_API_KEY" then some "search-secret" else none

/-- Both required realtime variables set, nothing else. -/
def envRequired : Env := fun k =>
  if k = "AZURE_OPENAI_ENDPOINT" then some "https://example.openai.azure.com"
  else if k = "AZURE_OPENAI_REALTIME_DEPLOYMENT" then some "gpt-realtime"
  else none

/-- All five defaultable variables of claim C8 set to non-empty overrides. -/
def envFieldOverrides : Env := fun k =>
  if k = "AZURE_SEARCH_IDENTIFIER_FIELD" then some "my_id"
  else if k = "AZURE_SEARCH_CONTENT_FIELD" then some "my_content"
  else if k = "AZURE_SEARCH_EMBEDDING_FIELD" then some "my_vector"
  else if k = "AZURE_SEARCH_TITLE_FIELD" then some "my_title"
  else if k = "AZURE_OPENAI_REALTIME_VOICE_CHOICE" then some "verse"
  else none

/-- Every variable set to the empty string. -/
def envAllEmpty : Env := fun _ => some ""

/-- Like `envBothKeys` but with the search key different. -/
def envBothKeysAlt : Env := fun k =>
  if k = "AZURE_OPENAI_API_KEY" then some "llm-secret"
  else if k = "AZURE_SEARCH_API_KEY" then some "other-search-secret"
  else none

/-! ### Helper lemmas about the resolver -/

theorem strTruthy_iff (o : Option String) :
    strTruthy o = true ↔ ∃ s, o = some s ∧ s ≠ "" := by
  cases o <;> simp [strTruthy]

theorem fallbackCredential_congr (e1 e2 : Env)
    (h : e1 "AZURE_TENANT_ID" = e2 "AZURE_TENANT_ID") :
    fallbackCredential e1 = fallbackCredential e2 := by
  unfold fallbackCredential
  rw [h]

theorem fallbackCredential_ne_staticKey (env : Env) (s : String) :
    fallbackCredential env ≠ Credential.staticKey s := by
  unfold fallbackCredential
  cases env "AZURE_TENANT_ID" with
  | none => simp
  | some t => dsimp only; split <;> simp

theorem credential_spec (env : Env) :
    (resolveCredentials env).credential =
      if !strTruthy (env "AZURE_OPENAI_API_KEY") ||
         !strTruthy (env "AZURE_SEARCH_API_KEY") then
        some (fallbackCredential env)
      else none := rfl

theorem llm_credential_spec (env : Env) :
    (resolveCredentials env).llm_credential =
      if strTruthy (env "AZURE_OPENAI_API_KEY") then
        (env "AZURE_OPENAI_API_KEY").map Credential.staticKey
      else some (fallbackCredential env) := by
  cases h : strTruthy (env "AZURE_OPENAI_API_KEY") <;>
    simp [resolveCredentials, h]

theorem search_credential_spec (env : Env) :
    (resolveCredentials env).search_credential =
      if strTruthy (env "AZURE_SEARCH_API_KEY") then
        (env "AZURE_SEARCH_API_KEY").map Credential.staticKey
      else some (fallbackCredential env) := by
  cases h : strTruthy (env "AZURE_SEARCH_API_KEY") <;>
    simp [resolveCredentials, h]

theorem resolvedCredentials_eq_of_parts {a b : ResolvedCredentials}
    (h1 : a.credential = b.credential)
    (h2 : a.llm_credential = b.llm_credential)
    (h3 : a.search_credential = b.search_credential) : a = b := by
  cases a; cases b; simp_all

/-! ### Claim theorems -/

/-- C1 (counterexample): in the empty environment the variable
`AZURE_SEARCH_USE_VECTOR_QUERY` is absent, yet the `use_vector_query`
flag passed to `attach_rag_tools` is `true`, not `false` as claimed:
the source defaults the lookup to the literal string `"true"`. -/
theorem use_vector_query_absent_is_true :
    emptyEnv "AZURE_SEARCH_USE_VECTOR_QUERY" = none ∧
    (attach_rag_tools_args emptyEnv).use_vector_query = true := by
  exact ⟨rfl, by decide⟩

/-- C1 (amended): the `use_vector_query` flag passed to the retrieval-tool
attachment is `true` exactly when `AZURE_SEARCH_USE_VECTOR_QUERY` is absent
or has the exact value `"true"`, and `false` when it is set to any other
string value. -/
theorem use_vector_query_iff_absent_or_true (env : Env) :
    (attach_rag_tools_args env).use_vector_query = true ↔
      env "AZURE_SEARCH_USE_VECTOR_QUERY" = none ∨
      env "AZURE_SEARCH_USE_VECTOR_QUERY" = some "true" := by
  show use_vector_query env = true ↔ _
  unfold use_vector_query
  cases h : env "AZURE_SEARCH_USE_VECTOR_QUERY" <;> simp [h]

/-- C2: when both `AZURE_OPENAI_API_KEY` and `AZURE_SEARCH_API_KEY` are
present (set to non-empty secrets), the resolver produces two static-key
credentials wrapping exactly those two secrets, and the identity-credential
local `credential` is never constructed (stays `None`). -/
theorem both_keys_static (env : Env) (lk sk : String)
    (hl : env "AZURE_OPENAI_API_KEY" = some lk) (hlk : lk ≠ "")
    (hs : env "AZURE_SEARCH_API_KEY" = some sk) (hsk : sk ≠ "") :
    (resolveCredentials env).llm_credential = some (Credential.staticKey lk) ∧
    (resolveCredentials env).search_credential = some (Credential.staticKey sk) ∧
    (resolveCredentials env).credential = none := by
  refine ⟨?_, ?_, ?_⟩
  · rw [llm_credential_spec, hl]; simp [strTruthy, hlk]
  · rw [search_credential_spec, hs]; simp [strTruthy, hsk]
  · rw [credential_spec, hl, hs]; simp [strTruthy, hlk, hsk]

/-- C2 witness: the concrete environment setting both keys. -/
theorem both_keys_static_witness :
    (resolveCredentials envBothKeys).llm_credential =
      some (Credential.staticKey "llm-secret") ∧
    (resolveCredentials envBothKeys).search_credential =
      some (Credential.staticKey "search-secret") ∧
    (resolveCredentials envBothKeys).credential = none :=
  both_keys_static envBothKeys "llm-secret" "search-secret"
    (by decide) (by decide) (by decide) (by decide)

/-- C3: when neither API key is present and `AZURE_TENANT_ID` is set to a
non-empty tenant id, both services receive the tenant-scoped interactive
identity credential built from that tenant id with a process timeout of 60. -/
theorem no_keys_tenant_scoped (env : Env) (t : String)
    (hl : env "AZURE_OPENAI_API_KEY" = none)
    (hs : env "AZURE_SEARCH_API_KEY" = none)
    (ht : env "AZURE_TENANT_ID" = some t) (htne : t ≠ "") :
    (resolveCredentials env).llm_credential =
      some (Credential.tenantIdentity t 60) ∧
    (resolveCredentials env).search_credential =
      some (Credential.tenantIdentity t 60) := by
  have hfb : fallbackCredential env = Credential.tenantIdentity t 60 := by
    unfold fallbackCredential
    rw [ht]
    simp [htne]
  refine ⟨?_, ?_⟩
  · rw [llm_credential_spec, hl, hfb]; simp [strTruthy]
  · rw [search_credential_spec, hs, hfb]; simp [strTruthy]

/-- C3 witness: the concrete environment setting only the tenant id. -/
theorem no_keys_tenant_scoped_witness :
    (resolveCredentials envTenantOnly).llm_credential =
      some (Credential.tenantIdentity "tenant-1" 60) ∧
    (resolveCredentials envTenantOnly).search_credential =
      some (Credential.tenantIdentity "tenant-1" 60) :=
  no_keys_tenant_scoped envTenantOnly "tenant-1"
    (by decide) (by decide) (by decide) (by decide)

/-- C4: when neither API key nor a tenant id is present, both services
receive the one shared ambient-environment identity credential, and
neither receives a static key. -/
theorem no_keys_no_tenant_ambient (env : Env)
    (hl : env "AZURE_OPENAI_API_KEY" = none)
    (hs : env "AZURE_SEARCH_API_KEY" = none)
    (ht : env "AZURE_TENANT_ID" = none) :
    (resolveCredentials env).llm_credential = some Credential.ambientIdentity ∧
    (resolveCredentials env).search_credential = some Credential.ambientIdentity ∧
    (resolveCredentials env).llm_credential =
      (resolveCredentials env).search_credential ∧
    ∀ s, (resolveCredentials env).llm_credential ≠
           some (Credential.staticKey s) ∧
         (resolveCredentials env).search_credential ≠
           some (Credential.staticKey s) := by
  have hfb : fallbackCredential env = Credential.ambientIdentity := by
    unfold fallbackCredential
    rw [ht]
  have h1 : (resolveCredentials env).llm_credential =
      some Credential.ambientIdentity := by
    rw [llm_credential_spec, hl, hfb]; simp [strTruthy]
  have h2 : (resolveCredentials env).search_credential =
      some Credential.ambientIdentity := by
    rw [search_credential_spec, hs, hfb]; simp [strTruthy]
  refine ⟨h1, h2, h1.trans h2.symm, ?_⟩
  intro s
  rw [h1, h2]
  simp

/-- C4 witness: the empty environment. -/
theorem no_keys_no_tenant_ambient_witness :
    (resolveCredentials emptyEnv).llm_credential =
      some Credential.ambientIdentity ∧
    (resolveCredentials emptyEnv).search_credential =
      some Credential.ambientIdentity ∧
    (resolveCredentials emptyEnv).llm_credential =
      (resolveCredentials emptyEnv).search_credential ∧
    ∀ s, (resolveCredentials emptyEnv).llm_credential ≠
           some (Credential.staticKey s) ∧
         (resolveCredentials emptyEnv).search_credential ≠
           some (Credential.staticKey s) :=
  no_keys_no_tenant_ambient emptyEnv rfl rfl rfl

/-- C5: when exactly one API key is present (non-empty) and the other is
absent, the present key's service receives a static-key credential wrapping
that key and the other service receives the fallback identity credential,
which is tenant-scoped when `AZURE_TENANT_ID` is set non-empty and ambient
when it is unset. -/
theorem one_key_static_other_fallback (env : Env) :
    (∀ lk, env "AZURE_OPENAI_API_KEY" = some lk → lk ≠ "" →
      env "AZURE_SEARCH_API_KEY" = none →
      (resolveCredentials env).llm_credential =
        some (Credential.staticKey lk) ∧
      (resolveCredentials env).search_credential =
        some (fallbackCredential env)) ∧
    (∀ sk, env "AZURE_SEARCH_API_KEY" = some sk → sk ≠ "" →
      env "AZURE_OPENAI_API_KEY" = none →
      (resolveCredentials env).search_credential =
        some (Credential.staticKey sk) ∧
      (resolveCredentials env).llm_credential =
        some (fallbackCredential env)) ∧
    (∀ t, env "AZURE_TENANT_ID" = some t → t ≠ "" →
      fallbackCredential env = Credential.tenantIdentity t 60) ∧
    (env "AZURE_TENANT_ID" = none →
      fallbackCredential env = Credential.ambientIdentity) := by
  refine ⟨?_, ?_, ?_, ?_⟩
  · intro lk hl hlk hs
    refine ⟨?_, ?_⟩
    · rw [llm_credential_spec, hl]; simp [strTruthy, hlk]
    · rw [search_credential_spec, hs]; simp [strTruthy]
  · intro sk hs hsk hl
    refine ⟨?_, ?_⟩
    · rw [search_credential_spec, hs]; simp [strTruthy, hsk]
    · rw [llm_credential_spec, hl]; simp [strTruthy]
  · intro t ht htne
    unfold fallbackCredential
    rw [ht]
    simp [htne]
  · intro ht
    unfold fallbackCredential
    rw [ht]

/-- C5 witness: the two one-key environments, plus both tenant cases of the
fallback. -/
theorem one_key_static_other_fallback_witness :
    ((resolveCredentials envLLMKeyOnly).llm_credential =
       some (Credential.staticKey "llm-secret") ∧
     (resolveCredentials envLLMKeyOnly).search_credential =
       some (fallbackCredential envLLMKeyOnly)) ∧
    ((resolveCredentials envSearchKeyOnly).search_credential =
       some (Credential.staticKey "search-secret") ∧
     (resolveCredentials envSearchKeyOnly).llm_credential =
       some (fallbackCredential envSearchKeyOnly)) ∧
    fallbackCredential envTenantOnly = Credential.tenantIdentity "tenant-1" 60 ∧
    fallbackCredential emptyEnv = Credential.ambientIdentity :=
  ⟨(one_key_static_other_fallback envLLMKeyOnly).1 "llm-secret"
      (by decide) (by decide) (by decide),
   (one_key_static_other_fallback envSearchKeyOnly).2.1 "search-secret"
      (by decide) (by decide) (by decide),
   (one_key_static_other_fallback envTenantOnly).2.2.1 "tenant-1"
      (by decide) (by decide),
   (one_key_static_other_fallback emptyEnv).2.2.2 rfl⟩

/-- C6: the realtime configuration lookup fails with a configuration error
naming a required variable when `AZURE_OPENAI_ENDPOINT` or
`AZURE_OPENAI_REALTIME_DEPLOYMENT` is absent, and raises no error when both
are present. -/
theorem required_config_fail_fast (env : Env) :
    ((env "AZURE_OPENAI_ENDPOINT" = none ∨
      env "AZURE_OPENAI_REALTIME_DEPLOYMENT" = none) →
      ∃ k, (k = "AZURE_OPENAI_ENDPOINT" ∨
              k = "AZURE_OPENAI_REALTIME_DEPLOYMENT") ∧
           rtmt_args env = Except.error k) ∧
    (∀ ep dp, env "AZURE_OPENAI_ENDPOINT" = some ep →
      env "AZURE_OPENAI_REALTIME_DEPLOYMENT" = some dp →
      rtmt_args env = Except.ok
        { endpoint := ep, deployment := dp, voice_choice := voice_choice env }) := by
  constructor
  · intro h
    cases hep : env "AZURE_OPENAI_ENDPOINT" with
    | none =>
        exact ⟨"AZURE_OPENAI_ENDPOINT", Or.inl rfl, by unfold rtmt_args; rw [hep]⟩
    | some ep =>
        cases hdp : env "AZURE_OPENAI_REALTIME_DEPLOYMENT" with
        | none =>
            refine ⟨"AZURE_OPENAI_REALTIME_DEPLOYMENT", Or.inr rfl, ?_⟩
            unfold rtmt_args
            rw [hep, hdp]
        | some dp =>
            rw [hep, hdp] at h
            rcases h with h | h <;> exact absurd h (by simp)
  · intro ep dp hep hdp
    unfold rtmt_args
    rw [hep, hdp]

/-- C6 witness: the empty environment fails, the fully configured one
does not. -/
theorem required_config_fail_fast_witness :
    (∃ k, (k = "AZURE_OPENAI_ENDPOINT" ∨
             k = "AZURE_OPENAI_REALTIME_DEPLOYMENT") ∧
          rtmt_args emptyEnv = Except.error k) ∧
    rtmt_args envRequired = Except.ok
      { endpoint := "https://example.openai.azure.com"
        deployment := "gpt-realtime"
        voice_choice := voice_choice envRequired } :=
  ⟨(required_config_fail_fast emptyEnv).1 (Or.inl rfl),
   (required_config_fail_fast envRequired).2
      "https://example.openai.azure.com" "gpt-realtime" (by decide) (by decide)⟩

/-- C7: the language-model credential depends only on
`AZURE_OPENAI_API_KEY` and `AZURE_TENANT_ID`, never on
`AZURE_SEARCH_API_KEY`; symmetrically the search credential depends only
on `AZURE_SEARCH_API_KEY` and `AZURE_TENANT_ID`.  Two runs agreeing on the
relevant variables resolve the very same credential (hence the same kind
and the same wrapped secret). -/
theorem credential_resolution_independent (e1 e2 : Env)
    (ht : e1 "AZURE_TENANT_ID" = e2 "AZURE_TENANT_ID") :
    (e1 "AZURE_OPENAI_API_KEY" = e2 "AZURE_OPENAI_API_KEY" →
      (resolveCredentials e1).llm_credential =
        (resolveCredentials e2).llm_credential) ∧
    (e1 "AZURE_SEARCH_API_KEY" = e2 "AZURE_SEARCH_API_KEY" →
      (resolveCredentials e1).search_credential =
        (resolveCredentials e2).search_credential) := by
  have hfb : fallbackCredential e1 = fallbackCredential e2 :=
    fallbackCredential_congr e1 e2 ht
  constructor
  · intro hk
    rw [llm_credential_spec, llm_credential_spec, hk, hfb]
  · intro hk
    rw [search_credential_spec, search_credential_spec, hk, hfb]

/-- C7 witness: two environments differing only in the search key resolve
the same language-model credential, and two differing only in the
language-model key resolve the same search credential. -/
theorem credential_resolution_independent_witness :
    (resolveCredentials envBothKeys).llm_credential =
      (resolveCredentials envBothKeysAlt).llm_credential ∧
    (resolveCredentials emptyEnv).search_credential =
      (resolveCredentials envLLMKeyOnly).search_credential :=
  ⟨(credential_resolution_independent envBothKeys envBothKeysAlt
      (by decide)).1 (by decide),
   (credential_resolution_independent emptyEnv envLLMKeyOnly
      (by decide)).2 (by decide)⟩

/-- C8: each defaultable variable yields its documented default when unset
(`"chunk_id"`, `"chunk"`, `"text_vector"`, `"title"`, `"alloy"`), and a
non-empty override takes precedence over the default when the variable is
set. -/
theorem optional_defaults_and_overrides (env : Env) :
    (env "AZURE_SEARCH_IDENTIFIER_FIELD" = none →
      identifier_field env = "chunk_id") ∧
    (∀ v, env "AZURE_SEARCH_IDENTIFIER_FIELD" = some v → v ≠ "" →
      identifier_field env = v) ∧
    (env "AZURE_SEARCH_CONTENT_FIELD" = none →
      content_field env = "chunk") ∧
    (∀ v, env "AZURE_SEARCH_CONTENT_FIELD" = some v → v ≠ "" →
      content_field env = v) ∧
    (env "AZURE_SEARCH_EMBEDDING_FIELD" = none →
      embedding_field env = "text_vector") ∧
    (∀ v, env "AZURE_SEARCH_EMBEDDING_FIELD" = some v → v ≠ "" →
      embedding_field env = v) ∧
    (env "AZURE_SEARCH_TITLE_FIELD" = none →
      title_field env = "title") ∧
    (∀ v, env "AZURE_SEARCH_TITLE_FIELD" = some v → v ≠ "" →
      title_field env = v) ∧
    (env "AZURE_OPENAI_REALTIME_VOICE_CHOICE" = none →
      voice_choice env = "alloy") ∧
    (∀ v, env "AZURE_OPENAI_REALTIME_VOICE_CHOICE" = some v → v ≠ "" →
      voice_choice env = v) := by
  refine ⟨?_, ?_, ?_, ?_, ?_, ?_, ?_, ?_, ?_, ?_⟩ <;>
    first
      | (intro h; simp [identifier_field, content_field, embedding_field,
          title_field, voice_choice, pyOrString, h])
      | (intro v hv hne; simp [identifier_field, content_field,
          embedding_field, title_field, voice_choice, pyOrString, hv, hne])

/-- C8 witness: the empty environment takes every default; the override
environment takes every override. -/
theorem optional_defaults_and_overrides_witness :
    identifier_field emptyEnv = "chunk_id" ∧
    content_field emptyEnv = "chunk" ∧
    embedding_field emptyEnv = "text_vector" ∧
    title_field emptyEnv = "title" ∧
    voice_choice emptyEnv = "alloy" ∧
    identifier_field envFieldOverrides = "my_id" ∧
    content_field envFieldOverrides = "my_content" ∧
    embedding_field envFieldOverrides = "my_vector" ∧
    title_field envFieldOverrides = "my_title" ∧
    voice_choice envFieldOverrides = "verse" :=
  ⟨(optional_defaults_and_overrides emptyEnv).1 rfl,
   (optional_defaults_and_overrides emptyEnv).2.2.1 rfl,
   (optional_defaults_and_overrides emptyEnv).2.2.2.2.1 rfl,
   (optional_defaults_and_overrides emptyEnv).2.2.2.2.2.2.1 rfl,
   (optional_defaults_and_overrides emptyEnv).2.2.2.2.2.2.2.2.1 rfl,
   (optional_defaults_and_overrides envFieldOverrides).2.1 "my_id"
      (by decide) (by decide),
   (optional_defaults_and_overrides envFieldOverrides).2.2.2.1 "my_content"
      (by decide) (by decide),
   (optional_defaults_and_overrides envFieldOverrides).2.2.2.2.2.1 "my_vector"
      (by decide) (by decide),
   (optional_defaults_and_overrides envFieldOverrides).2.2.2.2.2.2.2.1 "my_title"
      (by decide) (by decide),
   (optional_defaults_and_overrides envFieldOverrides).2.2.2.2.2.2.2.2.2 "verse"
      (by decide) (by decide)⟩

/-- C9: an API key set to the empty string behaves exactly as an absent
key: the whole resolution is unchanged when the empty variable is removed,
the affected service receives the fallback identity credential, and a
static key wrapping the empty string is never produced for either
service. -/
theorem empty_key_as_absent (env : Env) :
    (env "AZURE_OPENAI_API_KEY" = some "" →
      resolveCredentials env =
        resolveCredentials (updateEnv env "AZURE_OPENAI_API_KEY" none) ∧
      (resolveCredentials env).llm_credential =
        some (fallbackCredential env)) ∧
    (env "AZURE_SEARCH_API_KEY" = some "" →
      resolveCredentials env =
        resolveCredentials (updateEnv env "AZURE_SEARCH_API_KEY" none) ∧
      (resolveCredentials env).search_credential =
        some (fallbackCredential env)) ∧
    (∀ s, (resolveCredentials env).llm_credential =
            some (Credential.staticKey s) → s ≠ "") ∧
    (∀ s, (resolveCredentials env).search_credential =
            some (Credential.staticKey s) → s ≠ "") := by
  refine ⟨?_, ?_, ?_, ?_⟩
  · intro h
    have h1 : updateEnv env "AZURE_OPENAI_API_KEY" none "AZURE_OPENAI_API_KEY"
        = none := by simp [updateEnv]
    have h2 : updateEnv env "AZURE_OPENAI_API_KEY" none "AZURE_SEARCH_API_KEY"
        = env "AZURE_SEARCH_API_KEY" := by simp [updateEnv]
    have h3 : fallbackCredential (updateEnv env "AZURE_OPENAI_API_KEY" none)
        = fallbackCredential env :=
      fallbackCredential_congr _ _ (by simp [updateEnv])
    refine ⟨resolvedCredentials_eq_of_parts ?_ ?_ ?_, ?_⟩
    · rw [credential_spec, credential_spec, h, h1, h2, h3]
      simp [strTruthy]
    · rw [llm_credential_spec, llm_credential_spec, h, h1, h3]
      simp [strTruthy]
    · rw [search_credential_spec, search_credential_spec, h2, h3]
    · rw [llm_credential_spec, h]
      simp [strTruthy]
  · intro h
    have h1 : updateEnv env "AZURE_SEARCH_API_KEY" none "AZURE_SEARCH_API_KEY"
        = none := by simp [updateEnv]
    have h2 : updateEnv env "AZURE_SEARCH_API_KEY" none "AZURE_OPENAI_API_KEY"
        = env "AZURE_OPENAI_API_KEY" := by simp [updateEnv]
    have h3 : fallbackCredential (updateEnv env "AZURE_SEARCH_API_KEY" none)
        = fallbackCredential env :=
      fallbackCredential_congr _ _ (by simp [updateEnv])
    refine ⟨resolvedCredentials_eq_of_parts ?_ ?_ ?_, ?_⟩
    · rw [credential_spec, credential_spec, h, h1, h2, h3]
      simp [strTruthy]
    · rw [llm_credential_spec, llm_credential_spec, h2, h3]
    · rw [search_credential_spec, search_credential_spec, h, h1, h3]
      simp [strTruthy]
    · rw [search_credential_spec, h]
      simp [strTruthy]
  · intro s hs
    rw [llm_credential_spec] at hs
    cases hT : strTruthy (env "AZURE_OPENAI_API_KEY") with
    | false =>
        rw [hT] at hs
        simp only [if_neg Bool.false_ne_true, Option.some.injEq] at hs
        exact absurd hs (fallbackCredential_ne_staticKey env s)
    | true =>
        obtain ⟨v, hv, hvne⟩ := (strTruthy_iff _).mp hT
        rw [hT, hv] at hs
        simp at hs
        rw [← hs]
        exact hvne
  · intro s hs
    rw [search_credential_spec] at hs
    cases hT : strTruthy (env "AZURE_SEARCH_API_KEY") with
    | false =>
        rw [hT] at hs
        simp only [if_neg Bool.false_ne_true, Option.some.injEq] at hs
        exact absurd hs (fallbackCredential_ne_staticKey env s)
    | true =>
        obtain ⟨v, hv, hvne⟩ := (strTruthy_iff _).mp hT
        rw [hT, hv] at hs
        simp at hs
        rw [← hs]
        exact hvne

/-- C9 witness: the all-empty environment, where both keys are set to
`""`. -/
theorem empty_key_as_absent_witness :
    (resolveCredentials envAllEmpty =
       resolveCredentials (updateEnv envAllEmpty "AZURE_OPENAI_API_KEY" none) ∧
     (resolveCredentials envAllEmpty).llm_credential =
       some (fallbackCredential envAllEmpty)) ∧
    (resolveCredentials envAllEmpty =
       resolveCredentials (updateEnv envAllEmpty "AZURE_SEARCH_API_KEY" none) ∧
     (resolveCredentials envAllEmpty).search_credential =
       some (fallbackCredential envAllEmpty)) :=
  ⟨(empty_key_as_absent envAllEmpty).1 rfl,
   (empty_key_as_absent envAllEmpty).2.1 rfl⟩

/-- C10: an optional string variable set to the empty string behaves as if
unset: the voice choice is `"alloy"`, the semantic configuration is
normalized to the absent value, and each search field name takes its
documented default. -/
theorem empty_optional_as_unset (env : Env) :
    (env "AZURE_OPENAI_REALTIME_VOICE_CHOICE" = some "" →
      voice_choice env = "alloy") ∧
    (env "AZURE_SEARCH_SEMANTIC_CONFIGURATION" = some "" →
      semantic_configuration env = none) ∧
    (env "AZURE_SEARCH_IDENTIFIER_FIELD" = some "" →
      identifier_field env = "chunk_id") ∧
    (env "AZURE_SEARCH_CONTENT_FIELD" = some "" →
      content_field env = "chunk") ∧
    (env "AZURE_SEARCH_EMBEDDING_FIELD" = some "" →
      embedding_field env = "text_vector") ∧
    (env "AZURE_SEARCH_TITLE_FIELD" = some "" →
      title_field env = "title") := by
  refine ⟨?_, ?_, ?_, ?_, ?_, ?_⟩ <;>
    (intro h;
     simp [voice_choice, semantic_configuration, identifier_field,
       content_field, embedding_field, title_field, pyOrString, pyOrNone, h])

/-- C10 witness: the all-empty environment. -/
theorem empty_optional_as_unset_witness :
    voice_choice envAllEmpty = "alloy" ∧
    semantic_configuration envAllEmpty = none ∧
    identifier_field envAllEmpty = "chunk_id" ∧
    content_field envAllEmpty = "chunk" ∧
    embedding_field envAllEmpty = "text_vector" ∧
    title_field envAllEmpty = "title" :=
  ⟨(empty_optional_as_unset envAllEmpty).1 rfl,
   (empty_optional_as_unset envAllEmpty).2.1 rfl,
   (empty_optional_as_unset envAllEmpty).2.2.1 rfl,
   (empty_optional_as_unset envAllEmpty).2.2.2.1 rfl,
   (empty_optional_as_unset envAllEmpty).2.2.2.2.1 rfl,
   (empty_optional_as_unset envAllEmpty).2.2.2.2.2 rfl⟩
